import Mathlib

/- Shallow embedding of the costing and GST engine of the BoxCostPython backend
   (backend/services/calculator.py, backend/services/gst.py).

   Conventions:
   - Python Decimal and float values are modelled as exact rationals.
     Decimal.quantize(Decimal("0.01"), ROUND_HALF_UP) is quantize2 (round half
     away from zero, which is what ROUND_HALF_UP does); the builtin
     round(x, n) on numbers is modelled as round-half-to-even (pyround n).
   - Python str values are modelled as List Char; the character classes
     isalpha / isdigit / isalnum are modelled on their ASCII fragment, which
     covers every input the specification discusses.
   - A Python attribute that may be absent is an Option; reading an absent
     attribute raises AttributeError, modelled with Except String. -/

/-- Rounding of a rational to an integer with Decimal mode ROUND_HALF_UP
(ties go away from zero). -/
def roundHalfUpInt (x : ℚ) : ℤ :=
  if 0 ≤ x then ⌊x + 1/2⌋ else -⌊-x + 1/2⌋

/-- Model of Decimal.quantize(Decimal("0.01"), ROUND_HALF_UP): round to two
decimal places, ties away from zero. -/
def quantize2 (x : ℚ) : ℚ := (roundHalfUpInt (x * 100) : ℚ) / 100

/-- Rounding of a rational to an integer with ties to the nearest even
integer, as Python's builtin round does. -/
def roundHalfEvenInt (x : ℚ) : ℤ :=
  if x - ⌊x⌋ < 1/2 then ⌊x⌋
  else if 1/2 < x - ⌊x⌋ then ⌊x⌋ + 1
  else if ⌊x⌋ % 2 = 0 then ⌊x⌋ else ⌊x⌋ + 1

/-- Model of Python's round(x, ndigits) on a numeric value. -/
def pyround (ndigits : ℕ) (x : ℚ) : ℚ :=
  (roundHalfEvenInt (x * 10 ^ ndigits) : ℚ) / 10 ^ ndigits

/- ------------------------------------------------------------------ -/
/- backend/services/gst.py : class GSTCalculator                       -/
/- ------------------------------------------------------------------ -/

/-- Return value of GSTCalculator.calculate_gst (the dict with keys cgst,
sgst, igst, total_gst, total_amount). -/
structure GSTBreakdown where
  cgst : ℚ
  sgst : ℚ
  igst : ℚ
  total_gst : ℚ
  total_amount : ℚ
deriving DecidableEq

/-- GSTCalculator.calculate_gst. -/
def calculate_gst (amount : ℚ) (gst_rate : ℚ) (is_inter_state : Bool)
    (discount_amount : ℚ) : GSTBreakdown :=
  let taxable_value0 := quantize2 (amount - discount_amount)
  let taxable_value := if taxable_value0 < 0 then 0 else taxable_value0
  let gst_multiplier := gst_rate / 100
  let total_gst := quantize2 (taxable_value * gst_multiplier)
  if is_inter_state then
    { cgst := 0, sgst := 0, igst := total_gst, total_gst := total_gst
      total_amount := taxable_value + total_gst }
  else
    let cgst := quantize2 (total_gst / 2)
    let sgst := total_gst - cgst
    { cgst := cgst, sgst := sgst, igst := 0, total_gst := total_gst
      total_amount := taxable_value + total_gst }

/-- GSTCalculator.calculate_reverse_gst. -/
def calculate_reverse_gst (total_amount : ℚ) (gst_rate : ℚ) : ℚ :=
  quantize2 (total_amount * 100 / (100 + gst_rate))

/-- GSTCalculator.VALID_STATE_CODES. -/
def VALID_STATE_CODES : List (List Char) :=
  [['0','1'], ['0','2'], ['0','3'], ['0','4'], ['0','5'], ['0','6'], ['0','7'],
   ['0','8'], ['0','9'], ['1','0'],
   ['1','1'], ['1','2'], ['1','3'], ['1','4'], ['1','5'], ['1','6'], ['1','7'],
   ['1','8'], ['1','9'], ['2','0'],
   ['2','1'], ['2','2'], ['2','3'], ['2','4'], ['2','6'], ['2','7'], ['2','9'],
   ['3','0'], ['3','1'], ['3','2'],
   ['3','3'], ['3','4'], ['3','5'], ['3','6'], ['3','7'], ['3','8'],
   ['9','7'], ['9','9']]

/-- Python str.isalpha on the ASCII fragment: nonempty and all letters. -/
def pyIsalpha (s : List Char) : Bool := !s.isEmpty && s.all Char.isAlpha

/-- Python str.isdigit on the ASCII fragment: nonempty and all digits. -/
def pyIsdigit (s : List Char) : Bool := !s.isEmpty && s.all Char.isDigit

/-- GSTCalculator.validate_gstin.  The single-character accesses pan[9] and
gstin[12] are modelled with getD; both sit behind the len(gstin) == 15 guard,
so the default is never consulted and Python's indexing cannot raise. -/
def validate_gstin (gstin : List Char) : Bool :=
  if gstin.isEmpty || gstin.length ≠ 15 then false
  else
    let state_code := gstin.take 2
    if state_code ∉ VALID_STATE_CODES then false
    else
      let pan := (gstin.drop 2).take 10
      if !(pyIsalpha (pan.take 5) && pyIsdigit ((pan.drop 5).take 4)
            && Char.isAlpha (pan.getD 9 ' ')) then false
      else
        let entity_num := gstin.getD 12 ' '
        Char.isAlphanum entity_num

/- ------------------------------------------------------------------ -/
/- backend/services/gst.py : class InvoiceNumberGenerator              -/
/- ------------------------------------------------------------------ -/

/-- The decimal digit character for a value below ten. -/
def decDigitChar (k : ℕ) : Char :=
  match k with
  | 0 => '0' | 1 => '1' | 2 => '2' | 3 => '3' | 4 => '4'
  | 5 => '5' | 6 => '6' | 7 => '7' | 8 => '8' | _ => '9'

/-- Python str(n) for a natural number: the decimal digits, most
significant first. -/
def natToDec (n : ℕ) : List Char :=
  if h : n < 10 then [decDigitChar n]
  else natToDec (n / 10) ++ [decDigitChar (n % 10)]
decreasing_by exact Nat.div_lt_self (by omega) (by omega)

/-- Python s[-2:]: the last two characters (the whole string when shorter). -/
def pyLast2 (s : List Char) : List Char := s.drop (s.length - 2)

/-- The date fields InvoiceNumberGenerator.get_financial_year reads.  The
datetime library guarantees 1 <= year and 1 <= month <= 12. -/
structure PyDate where
  year : ℕ
  month : ℕ
  day : ℕ
deriving DecidableEq

/-- InvoiceNumberGenerator.get_financial_year.  For month < 4 Python computes
year - 1 over the integers; datetime dates have year >= 1, where natural
subtraction agrees. -/
def get_financial_year (date : PyDate) : List Char :=
  if 4 ≤ date.month then
    natToDec date.year ++ ['-'] ++ pyLast2 (natToDec (date.year + 1))
  else
    natToDec (date.year - 1) ++ ['-'] ++ pyLast2 (natToDec date.year)

/-- Python format specifier {n:04d} for a nonnegative integer: the decimal
digits, zero-padded on the left to at least four characters. -/
def format04d (n : ℕ) : List Char :=
  List.replicate (4 - (natToDec n).length) '0' ++ natToDec n

/-- InvoiceNumberGenerator.generate_invoice_number.  A falsy (empty)
financial_year argument falls back to the financial year of the current
date, passed here explicitly as today; sequences are taken nonnegative
(negative sequence numbers never occur, the claims quantify over positive
ones). -/
def generate_invoice_number (today : PyDate) (pfx : List Char) (sequence : ℕ)
    (financial_year : List Char) : List Char :=
  let fy := if financial_year.isEmpty then get_financial_year today
            else financial_year
  pfx ++ ['/', 'F', 'Y'] ++ fy ++ ['/'] ++ format04d sequence

/-- Python str.split(sep) for a single-character separator. -/
def splitOnChar (sep : Char) : List Char → List (List Char)
  | [] => [[]]
  | c :: rest =>
    match splitOnChar sep rest with
    | [] => [[]]
    | p :: ps => if c = sep then [] :: p :: ps else (c :: p) :: ps

/-- Numeric value of a decimal digit character. -/
def decDigitVal (c : Char) : ℕ := c.toNat - 48

/-- Value of a run of decimal digit characters. -/
def parseDecDigits (s : List Char) : ℕ :=
  s.foldl (fun a c => 10 * a + decDigitVal c) 0

/-- Model of Python int(str): optional surrounding spaces, an optional sign,
then a nonempty run of decimal digits; none when malformed (ValueError). -/
def pyParseInt (s : List Char) : Option ℤ :=
  let t := ((s.dropWhile (fun c => c = ' ')).reverse.dropWhile
              (fun c => c = ' ')).reverse
  match t with
  | [] => none
  | c :: rest =>
    if c = '-' then
      if !rest.isEmpty && rest.all Char.isDigit then
        some (-(parseDecDigits rest : ℤ))
      else none
    else if c = '+' then
      if !rest.isEmpty && rest.all Char.isDigit then
        some ((parseDecDigits rest : ℤ))
      else none
    else if (c :: rest).all Char.isDigit then
      some ((parseDecDigits (c :: rest) : ℤ))
    else none

/-- InvoiceNumberGenerator.parse_sequence. -/
def parse_sequence (invoice_number : List Char) : ℤ :=
  if invoice_number.isEmpty then 0
  else
    let parts := splitOnChar '/' invoice_number
    match pyParseInt (parts.getLastD []) with
    | some n => n
    | none => 0

/- ------------------------------------------------------------------ -/
/- backend/services/calculator.py                                      -/
/- ------------------------------------------------------------------ -/

/-- A PaperLayer instance: bf, gsm, is_flute are always set by __init__;
the shade attribute may be absent (Option). -/
structure PaperLayerObj where
  bf : ℤ
  gsm : ℤ
  shade : Option (List Char)
  is_flute : Bool
deriving DecidableEq

/-- PaperLayer.__init__(self, bf, gsm, shade, is_flute=False).  Its body
executes the statement shade = shade — a rebinding of the local name, not
self.shade = shade — so the constructed instance never receives a shade
attribute; that absence is modelled as none. -/
def PaperLayer.init (bf : ℤ) (gsm : ℤ) (shade : List Char)
    (is_flute : Bool := false) : PaperLayerObj :=
  { bf := bf, gsm := gsm, shade := none, is_flute := is_flute }

/-- A paper layer as the data model describes it, with the shade stored.
Mapping through FullLayer.toObj yields the layer objects whose shade
attribute is present. -/
structure FullLayer where
  bf : ℤ
  gsm : ℤ
  shade : List Char
  is_flute : Bool
deriving DecidableEq

/-- The layer object carrying its shade attribute. -/
def FullLayer.toObj (l : FullLayer) : PaperLayerObj :=
  { bf := l.bf, gsm := l.gsm, shade := some l.shade, is_flute := l.is_flute }

/-- BoxSpecification.__init__ fields (defaults as in the source). -/
structure BoxSpecification where
  length : ℚ
  width : ℚ
  height : ℚ
  ply : ℤ
  quantity : ℤ
  paper_layers : List PaperLayerObj
  fluting_factor : ℚ := 1.35
  conversion_rate : ℚ := 15
  printing_cost : ℚ := 0
  die_cost : ℚ := 0

/-- CalculationResult fields.  bct is real-valued because the McKee formula
takes square roots. -/
structure CalculationResult where
  sheet_length : ℚ
  sheet_width : ℚ
  sheet_area : ℚ
  paper_weight : ℚ
  board_thickness : ℚ
  paper_cost : ℚ
  manufacturing_cost : ℚ
  conversion_cost : ℚ
  unit_cost : ℚ
  total_cost : ℚ
  ect : Option ℚ
  bct : Option ℝ
  burst_strength : Option ℚ

def GLUE_FLAP : ℚ := 30
def DECKLE_ALLOWANCE : ℚ := 25
def SHEET_ALLOWANCE : ℚ := 15
def GSM_TO_KG_FACTOR : ℚ := 1000000

/-- BoxCalculator._calculate_sheet_dimensions. -/
def _calculate_sheet_dimensions (length width height : ℚ) : ℚ × ℚ :=
  (2 * (length + width) + GLUE_FLAP + DECKLE_ALLOWANCE + SHEET_ALLOWANCE,
   2 * height + DECKLE_ALLOWANCE + SHEET_ALLOWANCE)

/-- BoxCalculator._calculate_paper_weight. -/
def _calculate_paper_weight (sheet_area : ℚ) (layers : List PaperLayerObj)
    (fluting_factor : ℚ) : ℚ :=
  let total_gsm := layers.foldl
    (fun acc layer =>
      if layer.is_flute then acc + (layer.gsm : ℚ) * fluting_factor
      else acc + (layer.gsm : ℚ)) 0
  pyround 4 (sheet_area * total_gsm / 1000)

/-- BoxCalculator._calculate_board_thickness (the fluting_factor parameter is
accepted and unused, as in the source). -/
def _calculate_board_thickness (layers : List PaperLayerObj)
    (fluting_factor : ℚ) : ℚ :=
  let thickness := layers.foldl
    (fun acc layer =>
      if layer.is_flute then acc + 4 else acc + (layer.gsm : ℚ) / 130) 0
  pyround 3 thickness

/-- Python dict.get(key, 0) over the paper-rate table. -/
def dictGet (rates : List ((ℤ × ℤ × List Char) × ℚ))
    (key : ℤ × ℤ × List Char) : ℚ :=
  match rates.find? (fun kv => decide (kv.1 = key)) with
  | some kv => kv.2
  | none => 0

/-- The loop of BoxCalculator._calculate_paper_cost, accumulating total_rate
and total_gsm; reading layer.shade on a layer without the attribute raises
AttributeError. -/
def paperCostLoop (rates : List ((ℤ × ℤ × List Char) × ℚ)) :
    List PaperLayerObj → ℚ → ℤ → Except String (ℚ × ℤ)
  | [], total_rate, total_gsm => .ok (total_rate, total_gsm)
  | layer :: rest, total_rate, total_gsm =>
    match layer.shade with
    | none => .error "AttributeError"
    | some shade =>
      let rate := dictGet rates (layer.bf, layer.gsm, shade)
      paperCostLoop rates rest (total_rate + rate * (layer.gsm : ℚ))
        (total_gsm + layer.gsm)

/-- BoxCalculator._calculate_paper_cost. -/
def _calculate_paper_cost (weight : ℚ) (layers : List PaperLayerObj)
    (rates : List ((ℤ × ℤ × List Char) × ℚ)) : Except String ℚ :=
  match paperCostLoop rates layers 0 0 with
  | .error e => .error e
  | .ok (total_rate, total_gsm) =>
    let avg_rate := if 0 < total_gsm then total_rate / (total_gsm : ℚ) else 0
    .ok (pyround 2 (weight * avg_rate))

/-- BoxCalculator._calculate_ect (0.1 and 1.5 are exact here). -/
def _calculate_ect (layers : List PaperLayerObj) : Option ℚ :=
  let total_rct := layers.foldl
    (fun acc layer =>
      if layer.is_flute then acc else acc + (layer.bf : ℚ) * (1/10)) 0
  let ect := total_rct * (3/2)
  if 0 < ect then some (pyround 2 ect) else none

/-- Rounding half-to-even over the reals (Python round applied to the McKee
formula value). -/
noncomputable def roundHalfEvenIntR (x : ℝ) : ℤ :=
  if x - ⌊x⌋ < 1/2 then ⌊x⌋
  else if 1/2 < x - ⌊x⌋ then ⌊x⌋ + 1
  else if ⌊x⌋ % 2 = 0 then ⌊x⌋ else ⌊x⌋ + 1

/-- Python round(x, ndigits) over the reals. -/
noncomputable def pyroundR (ndigits : ℕ) (x : ℝ) : ℝ :=
  (roundHalfEvenIntR (x * 10 ^ ndigits) : ℝ) / 10 ^ ndigits

/-- BoxCalculator._calculate_bct (McKee formula); math.sqrt is Real.sqrt.
The Python guard `if not ect or ect <= 0` is true exactly when ect is None
or its value is <= 0 (None and 0.0 are both falsy).  math.sqrt's domain
error on negative arguments is not modelled; the claims only exercise
nonnegative thickness and perimeter. -/
noncomputable def _calculate_bct (ect : Option ℚ)
    (length width height thickness : ℚ) : Option ℝ :=
  match ect with
  | none => none
  | some e =>
    if e ≤ 0 then none
    else
      let perimeter : ℚ := 2 * (length + width)
      some (pyroundR 2 ((587/100) * (e : ℝ) * Real.sqrt (thickness : ℝ)
        * Real.sqrt (perimeter : ℝ)))

/-- BoxCalculator._calculate_burst_strength. -/
def _calculate_burst_strength (layers : List PaperLayerObj) : Option ℚ :=
  let total_bf : ℤ := ((layers.filter (fun l => !l.is_flute)).map
    (fun l => l.bf)).sum
  if 0 < total_bf then some (pyround 2 (total_bf : ℚ)) else none

/-- BoxCalculator.calculate, steps 1 through 9 in source order; the
AttributeError raised inside _calculate_paper_cost aborts the call. -/
noncomputable def calculate (spec : BoxSpecification)
    (paper_rates : List ((ℤ × ℤ × List Char) × ℚ)) :
    Except String CalculationResult :=
  let sd := _calculate_sheet_dimensions spec.length spec.width spec.height
  let sheet_area := sd.1 * sd.2 / GSM_TO_KG_FACTOR
  let paper_weight :=
    _calculate_paper_weight sheet_area spec.paper_layers spec.fluting_factor
  let board_thickness :=
    _calculate_board_thickness spec.paper_layers spec.fluting_factor
  match _calculate_paper_cost paper_weight spec.paper_layers paper_rates with
  | .error e => .error e
  | .ok paper_cost =>
    let manufacturing_cost := spec.printing_cost + spec.die_cost
    let conversion_cost := paper_weight * spec.conversion_rate
    let unit_cost := paper_cost + manufacturing_cost + conversion_cost
    let total_cost := unit_cost * (spec.quantity : ℚ)
    let ect := _calculate_ect spec.paper_layers
    let bct := _calculate_bct ect spec.length spec.width spec.height
      board_thickness
    let burst_strength := _calculate_burst_strength spec.paper_layers
    .ok { sheet_length := sd.1, sheet_width := sd.2, sheet_area := sheet_area,
          paper_weight := paper_weight, board_thickness := board_thickness,
          paper_cost := paper_cost, manufacturing_cost := manufacturing_cost,
          conversion_cost := conversion_cost, unit_cost := unit_cost,
          total_cost := total_cost, ect := ect, bct := bct,
          burst_strength := burst_strength }

/- ------------------------------------------------------------------ -/
/- Specification-side formulas and concrete inputs used by the claims  -/
/- ------------------------------------------------------------------ -/

/-- The GSTBreakdown invariant phrase: exactly one of (cgst + sgst) or igst
is non-zero. -/
def exactlyOneTaxHead (b : GSTBreakdown) : Prop :=
  (b.cgst + b.sgst ≠ 0 ∧ b.igst = 0) ∨ (b.cgst + b.sgst = 0 ∧ b.igst ≠ 0)

/-- The last two decimal digits of a number, zero padded to width two (the
spec phrase "year+1 last two digits" for years of at least two digits). -/
def lastTwoDigitChars (n : ℕ) : List Char :=
  [decDigitChar (n / 10 % 10), decDigitChar (n % 10)]

/-- The GSTIN format as the specification words it: exactly 15 characters,
the first two a recognized state code, characters 3 to 12 in PAN structure
(5 letters, 4 digits, 1 letter), character 13 alphanumeric.  Character 14
and the checksum character 15 are unconstrained. -/
def gstin_spec_format (g : List Char) : Prop :=
  g.length = 15 ∧ g.take 2 ∈ VALID_STATE_CODES
    ∧ pyIsalpha ((g.drop 2).take 5) = true
    ∧ pyIsdigit ((g.drop 7).take 4) = true
    ∧ Char.isAlpha (g.getD 11 ' ') = true
    ∧ Char.isAlphanum (g.getD 12 ' ') = true

/-- The weighted-average rate exactly as the claim words it:
sum(rate * gsm) / sum(gsm), and 0 when sum(gsm) == 0. -/
def claim_weighted_rate (layers : List FullLayer)
    (rates : List ((ℤ × ℤ × List Char) × ℚ)) : ℚ :=
  let total_gsm := (layers.map (fun l => l.gsm)).sum
  if total_gsm = 0 then 0
  else (layers.map
    (fun l => dictGet rates (l.bf, l.gsm, l.shade) * (l.gsm : ℚ))).sum
      / (total_gsm : ℚ)

/-- The weighted-average rate as the code computes it: the quotient is only
taken when sum(gsm) is strictly positive, otherwise the rate is 0. -/
def amended_weighted_rate (layers : List FullLayer)
    (rates : List ((ℤ × ℤ × List Char) × ℚ)) : ℚ :=
  let total_gsm := (layers.map (fun l => l.gsm)).sum
  if 0 < total_gsm then (layers.map
    (fun l => dictGet rates (l.bf, l.gsm, l.shade) * (l.gsm : ℚ))).sum
      / (total_gsm : ℚ)
  else 0

/-- The raw (pre-rounding) ECT value of a layer list: 1.5 times the sum of
bf * 0.1 over the liner layers. -/
def ect_raw (layers : List PaperLayerObj) : ℚ :=
  (((layers.filter (fun l => !l.is_flute)).map
    (fun l => (l.bf : ℚ) * (1/10))).sum) * (3/2)

/-- The raw burst-strength value of a layer list: the sum of bf over the
liner layers. -/
def burst_raw (layers : List PaperLayerObj) : ℤ :=
  ((layers.filter (fun l => !l.is_flute)).map (fun l => l.bf)).sum

/-- The three optional strength metrics of a result. -/
def strengthTriple (r : CalculationResult) :
    Option ℚ × Option ℝ × Option ℚ := (r.ect, r.bct, r.burst_strength)

/-- A well-formed 3-ply specification whose layers were built by
PaperLayer.__init__ (so none of them carries a shade attribute): positive
dimensions and quantity, ply 3 with three layers. -/
def specFromInit : BoxSpecification :=
  { length := 100, width := 100, height := 100, ply := 3, quantity := 1000,
    paper_layers :=
      [PaperLayer.init 18 120 ("golden".toList) false,
       PaperLayer.init 16 100 ("golden".toList) true,
       PaperLayer.init 18 120 ("golden".toList) false] }

/-- A paper-rate table covering the layers of specFromInit. -/
def ratesFromInit : List ((ℤ × ℤ × List Char) × ℚ) :=
  [((18, 120, ("golden".toList)), 32), ((16, 100, ("golden".toList)), 28)]

/-- A specification with a single liner layer of gsm 0 (shade attribute
present), giving board thickness 0 and a positive ECT. -/
def specZeroGsmLiner : BoxSpecification :=
  { length := 100, width := 100, height := 100, ply := 3, quantity := 1,
    paper_layers := [{ bf := 10, gsm := 0, shade := some ("w".toList),
                       is_flute := false }] }

/-- An all-flute specification (zero liner layers), shade attributes
present. -/
def specAllFlute : BoxSpecification :=
  { length := 100, width := 100, height := 100, ply := 3, quantity := 1,
    paper_layers :=
      [{ bf := 16, gsm := 100, shade := some ("w".toList), is_flute := true },
       { bf := 16, gsm := 100, shade := some ("w".toList), is_flute := true },
       { bf := 16, gsm := 100, shade := some ("w".toList), is_flute := true }] }

/- ------------------------------------------------------------------ -/
/- Helper lemmas                                                       -/
/- ------------------------------------------------------------------ -/

theorem ite_neg_zero_eq_max (x : ℚ) : (if x < 0 then (0:ℚ) else x) = max 0 x := by
  rcases lt_or_le x 0 with h | h
  · simp [h, max_eq_left h.le]
  · simp [not_lt.mpr h, max_eq_right h]

theorem decDigitChar_isDigit (k : ℕ) : Char.isDigit (decDigitChar k) = true := by
  unfold decDigitChar
  split <;> rfl

theorem decDigitVal_decDigitChar (k : ℕ) (h : k < 10) :
    decDigitVal (decDigitChar k) = k := by
  interval_cases k <;> rfl

theorem natToDec_props (n : ℕ) :
    parseDecDigits (natToDec n) = n
      ∧ (natToDec n).all Char.isDigit = true
      ∧ natToDec n ≠ [] := by
  induction n using Nat.strong_induction_on with
  | _ n ih =>
    by_cases h : n < 10
    · rw [natToDec]
      simp only [h, dite_true]
      refine ⟨?_, ?_, by simp⟩
      · simp [parseDecDigits, decDigitVal_decDigitChar n h]
      · simp [decDigitChar_isDigit]
    · obtain ⟨ihp, ihd, ihne⟩ := ih (n / 10) (Nat.div_lt_self (by omega) (by omega))
      rw [natToDec]
      simp only [h, dite_false]
      refine ⟨?_, ?_, by simp⟩
      · have hstep : parseDecDigits (natToDec (n / 10) ++ [decDigitChar (n % 10)])
            = 10 * parseDecDigits (natToDec (n / 10))
              + decDigitVal (decDigitChar (n % 10)) := by
          simp [parseDecDigits, List.foldl_append]
        rw [hstep, ihp, decDigitVal_decDigitChar (n % 10) (Nat.mod_lt n (by omega))]
        omega
      · simp [List.all_append, ihd, decDigitChar_isDigit]

theorem pyLast2_append_two (X : List Char) (a b : Char) :
    pyLast2 (X ++ [a, b]) = [a, b] := by
  unfold pyLast2
  have hl : (X ++ [a, b]).length - 2 = X.length := by simp
  rw [hl, List.drop_left]

theorem pyLast2_natToDec (n : ℕ) (h : 10 ≤ n) :
    pyLast2 (natToDec n) = lastTwoDigitChars n := by
  have h10 : ¬ n < 10 := by omega
  by_cases h2 : n < 100
  · have h3 : n / 10 < 10 := by omega
    rw [natToDec]
    simp only [h10, dite_false]
    rw [natToDec]
    simp only [h3, dite_true]
    have : ([decDigitChar (n / 10)] ++ [decDigitChar (n % 10)])
        = [] ++ [decDigitChar (n / 10), decDigitChar (n % 10)] := by simp
    rw [this, pyLast2_append_two]
    unfold lastTwoDigitChars
    rw [Nat.mod_eq_of_lt h3]
  · have h10' : ¬ n / 10 < 10 := by omega
    rw [natToDec]
    simp only [h10, dite_false]
    rw [natToDec]
    simp only [h10', dite_false]
    rw [List.append_assoc]
    have : ([decDigitChar (n / 10 % 10)] ++ [decDigitChar (n % 10)])
        = [decDigitChar (n / 10 % 10), decDigitChar (n % 10)] := by simp
    rw [this, pyLast2_append_two]
    rfl

theorem validate_gstin_iff (g : List Char) :
    validate_gstin g = true ↔ gstin_spec_format g := by
  by_cases hlen : g.length = 15
  · have hne : g.isEmpty = false := by
      cases g with
      | nil => simp at hlen
      | cons a t => rfl
    have hpan5 : ((g.drop 2).take 10).take 5 = (g.drop 2).take 5 := by
      rw [List.take_take]; norm_num
    have hpan4 : (((g.drop 2).take 10).drop 5).take 4 = (g.drop 7).take 4 := by
      rw [List.drop_take, List.drop_drop, List.take_take]; norm_num
    have hpan9 : ((g.drop 2).take 10).getD 9 ' ' = g.getD 11 ' ' := by
      rw [List.getD_eq_getElem?_getD, List.getD_eq_getElem?_getD,
        List.getElem?_take, List.getElem?_drop]
      norm_num
    by_cases hmem : g.take 2 ∈ VALID_STATE_CODES <;>
    by_cases h5 : pyIsalpha ((g.drop 2).take 5) = true <;>
    by_cases h4 : pyIsdigit ((g.drop 7).take 4) = true <;>
    by_cases h9 : Char.isAlpha (g.getD 11 ' ') = true <;>
    by_cases h12 : Char.isAlphanum (g.getD 12 ' ') = true <;>
      simp_all [validate_gstin, gstin_spec_format, hpan5, hpan4, hpan9]
  · constructor
    · intro hv
      exfalso
      unfold validate_gstin at hv
      simp [hlen] at hv
    · intro hs
      exact absurd hs.1 hlen

/- ------------------------------------------------------------------ -/
/- Claims                                                              -/
/- ------------------------------------------------------------------ -/

/-- C4: for every amount, GST rate and discount with is_inter_state = false,
calculate_gst produces cgst = round(total_gst/2, 2) and sgst = total_gst -
cgst (by subtraction, not rounded again), so cgst + sgst = total_gst holds
exactly; an odd number of minor units splits as at amount 1, rate 5: a
5 paise total_gst splits into cgst 3 and sgst 2 paise. -/
theorem C4_intra_state_split_sums_exactly
    (amount gst_rate discount_amount : ℚ) :
    ((calculate_gst amount gst_rate false discount_amount).cgst
        = quantize2
            ((calculate_gst amount gst_rate false discount_amount).total_gst / 2)
      ∧ (calculate_gst amount gst_rate false discount_amount).cgst
          + (calculate_gst amount gst_rate false discount_amount).sgst
          = (calculate_gst amount gst_rate false discount_amount).total_gst)
    ∧ (calculate_gst 1 5 false 0).total_gst = 5/100
    ∧ (calculate_gst 1 5 false 0).cgst = 3/100
    ∧ (calculate_gst 1 5 false 0).sgst = 2/100 := by
  refine ⟨⟨rfl, by simp [calculate_gst]⟩, ?_, ?_, ?_⟩ <;>
    norm_num [calculate_gst, quantize2, roundHalfUpInt]

/-- C5 (counterexample): at amount 0, rate 18, intra-state, no discount,
every tax head of the returned breakdown is zero, so the claimed invariant
"exactly one of (cgst + sgst) or igst is non-zero" fails. -/
theorem C5_counterexample_zero_gst :
    ¬ exactlyOneTaxHead (calculate_gst 0 18 false 0) := by
  norm_num [exactlyOneTaxHead, calculate_gst, quantize2, roundHalfUpInt]

/-- C5 (amended): every breakdown returned by calculate_gst satisfies
total_amount = max(0, round2(amount - discount)) + total_gst, never has both
(cgst + sgst) and igst non-zero, and has exactly one of them non-zero
whenever total_gst is non-zero (when total_gst = 0 all heads are zero). -/
theorem C5_amended_invariants (amount gst_rate discount_amount : ℚ)
    (is_inter_state : Bool) :
    (calculate_gst amount gst_rate is_inter_state discount_amount).total_amount
        = max 0 (quantize2 (amount - discount_amount))
          + (calculate_gst amount gst_rate is_inter_state
              discount_amount).total_gst
      ∧ ¬((calculate_gst amount gst_rate is_inter_state discount_amount).cgst
            + (calculate_gst amount gst_rate is_inter_state
                discount_amount).sgst ≠ 0
          ∧ (calculate_gst amount gst_rate is_inter_state
              discount_amount).igst ≠ 0)
      ∧ ((calculate_gst amount gst_rate is_inter_state
            discount_amount).total_gst ≠ 0
          → exactlyOneTaxHead
              (calculate_gst amount gst_rate is_inter_state
                discount_amount)) := by
  cases is_inter_state with
  | false =>
    refine ⟨?_, ?_, ?_⟩
    · rw [← ite_neg_zero_eq_max]
      simp [calculate_gst]
    · simp [calculate_gst]
    · intro h
      left
      refine ⟨?_, by simp [calculate_gst]⟩
      have hs : (calculate_gst amount gst_rate false discount_amount).cgst
          + (calculate_gst amount gst_rate false discount_amount).sgst
          = (calculate_gst amount gst_rate false discount_amount).total_gst := by
        simp [calculate_gst]
      rw [hs]
      exact h
  | true =>
    refine ⟨?_, ?_, ?_⟩
    · rw [← ite_neg_zero_eq_max]
      simp [calculate_gst]
    · simp [calculate_gst]
    · intro h
      right
      refine ⟨by simp [calculate_gst], ?_⟩
      simpa [calculate_gst] using h

/-- C5 (witness for the amended claim): at amount 1000, rate 18, intra-state,
total_gst is non-zero and exactly one tax head is non-zero. -/
theorem C5_amended_invariants_witness :
    (calculate_gst 1000 18 false 0).total_gst ≠ 0
      ∧ exactlyOneTaxHead (calculate_gst 1000 18 false 0) := by
  have h : (calculate_gst 1000 18 false 0).total_gst ≠ 0 := by
    norm_num [calculate_gst, quantize2, roundHalfUpInt]
  exact ⟨h, (C5_amended_invariants 1000 18 0 false).2.2 h⟩

/-- C9: get_financial_year renders the Indian fiscal year: for month >= 4 it
is year followed by the last two digits of year+1, otherwise year-1 followed
by the last two digits of year; 2025-03-31 gives "2024-25" and 2025-04-01
gives "2025-26". -/
theorem C9_financial_year (d : PyDate) (hy : 10 ≤ d.year) :
    (4 ≤ d.month →
      get_financial_year d
        = natToDec d.year ++ '-' :: lastTwoDigitChars (d.year + 1))
    ∧ (d.month < 4 →
      get_financial_year d
        = natToDec (d.year - 1) ++ '-' :: lastTwoDigitChars d.year)
    ∧ get_financial_year ⟨2025, 3, 31⟩ = ("2024-25".toList)
    ∧ get_financial_year ⟨2025, 4, 1⟩ = ("2025-26".toList) := by
  refine ⟨?_, ?_, ?_, ?_⟩
  · intro h
    unfold get_financial_year
    rw [if_pos h, pyLast2_natToDec (d.year + 1) (by omega)]
    simp
  · intro h
    unfold get_financial_year
    rw [if_neg (by omega), pyLast2_natToDec d.year (by omega)]
    simp
  · simp [get_financial_year, natToDec, decDigitChar, pyLast2]
  · simp [get_financial_year, natToDec, decDigitChar, pyLast2]

/-- C9 (witness): the characterization applied at 2025-04-01. -/
theorem C9_financial_year_witness :
    get_financial_year ⟨2025, 4, 1⟩
      = natToDec 2025 ++ '-' :: lastTwoDigitChars 2026 := by
  exact (C9_financial_year ⟨2025, 4, 1⟩ (by norm_num)).1 (by norm_num)

/-- C8: validate_gstin accepts exactly the 15-character strings whose first
two characters form a recognized state code, whose characters 3 to 12 have
PAN structure (5 letters, 4 digits, 1 letter) and whose character 13 is
alphanumeric — the trailing checksum character is not checked; the spec's
five table rows evaluate accordingly, and the function is total (never
throws). -/
theorem C8_validate_gstin_format :
    (∀ g : List Char, validate_gstin g = true ↔ gstin_spec_format g)
    ∧ validate_gstin ("27AABCU9603R1ZM".toList) = true
    ∧ validate_gstin ("06ABCDE1234F1Z5".toList) = true
    ∧ validate_gstin ("27AABCU9603R1Z".toList) = false
    ∧ validate_gstin ("99INVALIDGSTIN12".toList) = false
    ∧ validate_gstin ("00AABCU9603R1ZM".toList) = false :=
  ⟨validate_gstin_iff, by decide, by decide, by decide, by decide, by decide⟩

theorem paperCostLoop_error (rates : List ((ℤ × ℤ × List Char) × ℚ)) :
    ∀ (layers : List PaperLayerObj) (a : ℚ) (b : ℤ),
      (∃ l ∈ layers, l.shade = none)
      → paperCostLoop rates layers a b = .error "AttributeError" := by
  intro layers
  induction layers with
  | nil =>
    intro a b h
    simp at h
  | cons l rest ih =>
    intro a b h
    cases hs : l.shade with
    | none => simp [paperCostLoop, hs]
    | some s =>
      have hr : ∃ x ∈ rest, x.shade = none := by
        rcases h with ⟨x, hx, hxs⟩
        cases List.mem_cons.mp hx with
        | inl he =>
          rw [he] at hxs
          rw [hxs] at hs
          cases hs
        | inr hm => exact ⟨x, hm, hxs⟩
      have hrec := ih (a + dictGet rates (l.bf, l.gsm, s) * (l.gsm : ℚ))
        (b + l.gsm) hr
      simpa [paperCostLoop, hs] using hrec

/-- C2: PaperLayer.__init__ never stores the shade argument (its body runs
the no-op statement shade = shade), so a layer built by it lacks the shade
attribute, and _calculate_paper_cost raises AttributeError on every layer
list containing at least one such layer instead of computing a paper cost. -/
theorem C2_shade_never_stored :
    (∀ (bf gsm : ℤ) (sh : List Char) (fl : Bool),
      (PaperLayer.init bf gsm sh fl).shade = none)
    ∧ ∀ (layers : List PaperLayerObj) (w : ℚ)
        (rates : List ((ℤ × ℤ × List Char) × ℚ)),
        (∃ l ∈ layers, l.shade = none)
        → _calculate_paper_cost w layers rates = .error "AttributeError" := by
  refine ⟨fun bf gsm sh fl => rfl, ?_⟩
  intro layers w rates h
  unfold _calculate_paper_cost
  rw [paperCostLoop_error rates layers 0 0 h]

/-- C2 (witness): a singleton list of an __init__-built layer makes the
paper-cost computation raise. -/
theorem C2_shade_never_stored_witness :
    _calculate_paper_cost 1 [PaperLayer.init 18 120 ("golden".toList) false] []
      = .error "AttributeError" :=
  C2_shade_never_stored.2 _ 1 []
    ⟨PaperLayer.init 18 120 ("golden".toList) false, by simp, rfl⟩

/-- C1 (evaluation at the failing input): a 3-ply specification satisfying
the caller's validation rules, with layers built by PaperLayer.__init__ and
a complete rate table, makes BoxCalculator.calculate raise AttributeError
instead of returning a CalculationResult. -/
theorem C1_calculate_raises_on_valid_spec :
    calculate specFromInit ratesFromInit = .error "AttributeError" := by
  have h : _calculate_paper_cost
      (_calculate_paper_weight
        ((_calculate_sheet_dimensions specFromInit.length specFromInit.width
            specFromInit.height).1
          * (_calculate_sheet_dimensions specFromInit.length specFromInit.width
              specFromInit.height).2 / GSM_TO_KG_FACTOR)
        specFromInit.paper_layers specFromInit.fluting_factor)
      specFromInit.paper_layers ratesFromInit = .error "AttributeError" :=
    C2_shade_never_stored.2 _ _ _
      ⟨PaperLayer.init 18 120 ("golden".toList) false, by simp [specFromInit], rfl⟩
  simp only [calculate, h]

theorem paperCostLoop_full (rates : List ((ℤ × ℤ × List Char) × ℚ))
    (L : List FullLayer) :
    ∀ (a : ℚ) (b : ℤ),
      paperCostLoop rates (L.map FullLayer.toObj) a b
        = .ok (a + (L.map
              (fun l => dictGet rates (l.bf, l.gsm, l.shade) * (l.gsm : ℚ))).sum,
            b + (L.map (fun l => l.gsm)).sum) := by
  induction L with
  | nil =>
    intro a b
    simp [paperCostLoop]
  | cons l rest ih =>
    intro a b
    simp only [List.map_cons, paperCostLoop, FullLayer.toObj, ih,
      List.sum_cons, Except.ok.injEq, Prod.mk.injEq]
    constructor <;> ring

/-- C3 (amended): for every layer list (with shade attributes present), rate
table and paper weight, the paper cost equals round(weight * weighted_rate, 2)
where weighted_rate = sum(rate(bf,gsm,shade) * gsm) / sum(gsm) when
sum(gsm) > 0 and 0 otherwise — in particular 0 when sum(gsm) == 0, so there
is no division by zero — and a key missing from the rate table contributes
rate 0. -/
theorem C3_amended_paper_cost (w : ℚ) (L : List FullLayer)
    (rates : List ((ℤ × ℤ × List Char) × ℚ)) :
    _calculate_paper_cost w (L.map FullLayer.toObj) rates
        = .ok (pyround 2 (w * amended_weighted_rate L rates))
      ∧ ((L.map (fun l => l.gsm)).sum = 0 → amended_weighted_rate L rates = 0)
      ∧ ∀ key, (∀ kv ∈ rates, kv.1 ≠ key) → dictGet rates key = 0 := by
  refine ⟨?_, ?_, ?_⟩
  · unfold _calculate_paper_cost amended_weighted_rate
    rw [paperCostLoop_full]
    simp
  · intro h
    unfold amended_weighted_rate
    simp [h]
  · intro key hk
    unfold dictGet
    have : rates.find? (fun kv => decide (kv.1 = key)) = none := by
      rw [List.find?_eq_none]
      intro kv hkv
      simp [hk kv hkv]
    rw [this]

/-- C3 (counterexample): with the single layer (bf 1, gsm -100, shade "w"),
rate table {(1,-100,"w"): 10} and weight 1, the claim's formula divides by
sum(gsm) = -100 and gives paper cost 10, but the code's guard (sum(gsm) > 0)
fails and it returns 0. -/
theorem C3_counterexample_negative_gsm :
    _calculate_paper_cost 1
        (List.map FullLayer.toObj
          [{ bf := 1, gsm := -100, shade := ("w".toList), is_flute := false }])
        [((1, -100, ("w".toList)), 10)]
        = .ok 0
      ∧ pyround 2 (1 * claim_weighted_rate
          [{ bf := 1, gsm := -100, shade := ("w".toList), is_flute := false }]
          [((1, -100, ("w".toList)), 10)]) = 10
      ∧ (0 : ℚ) ≠ 10 := by
  refine ⟨?_, ?_, by norm_num⟩
  · norm_num [_calculate_paper_cost, paperCostLoop, FullLayer.toObj, dictGet,
      pyround, roundHalfEvenInt]
  · norm_num [claim_weighted_rate, dictGet, pyround, roundHalfEvenInt]

theorem splitOnChar_ne_nil (sep : Char) (l : List Char) :
    splitOnChar sep l ≠ [] := by
  cases l with
  | nil => simp [splitOnChar]
  | cons c rest =>
    simp only [splitOnChar]
    cases h : splitOnChar sep rest with
    | nil => simp
    | cons p ps => by_cases hc : c = sep <;> simp [hc]

theorem splitOnChar_append (sep : Char) (xs ys : List Char) :
    splitOnChar sep (xs ++ sep :: ys)
      = splitOnChar sep xs ++ splitOnChar sep ys := by
  induction xs with
  | nil =>
    cases h : splitOnChar sep ys with
    | nil => exact absurd h (splitOnChar_ne_nil sep ys)
    | cons p ps => simp [splitOnChar, h]
  | cons c rest ih =>
    cases h : splitOnChar sep rest with
    | nil => exact absurd h (splitOnChar_ne_nil sep rest)
    | cons p ps =>
      simp only [List.cons_append, splitOnChar, List.append_eq]
      rw [ih, h]
      by_cases hc : c = sep <;> simp [hc]

theorem splitOnChar_no_sep (sep : Char) (l : List Char) (h : sep ∉ l) :
    splitOnChar sep l = [l] := by
  induction l with
  | nil => simp [splitOnChar]
  | cons c rest ih =>
    have hc : ¬ (c = sep) := fun he => h (List.mem_cons.mpr (Or.inl he.symm))
    have hr : sep ∉ rest := fun hm => h (List.mem_cons_of_mem _ hm)
    simp only [splitOnChar, ih hr]
    simp [hc]

theorem parseDecDigits_replicate_zero (k : ℕ) (s : List Char) :
    parseDecDigits (List.replicate k '0' ++ s) = parseDecDigits s := by
  unfold parseDecDigits
  rw [List.foldl_append]
  have hz : List.foldl (fun a c => 10 * a + decDigitVal c) 0
      (List.replicate k '0') = 0 := by
    induction k with
    | zero => rfl
    | succ n ih => simpa [List.replicate_succ, decDigitVal] using ih
  rw [hz]

theorem format04d_digits (n : ℕ) :
    (format04d n).all Char.isDigit = true := by
  unfold format04d
  rw [List.all_append]
  have h1 : (List.replicate (4 - (natToDec n).length) '0').all Char.isDigit
      = true := by
    rw [List.all_eq_true]
    intro c hc
    rw [List.eq_of_mem_replicate hc]
    decide
  rw [h1, (natToDec_props n).2.1]
  rfl

theorem format04d_ne_nil (n : ℕ) : format04d n ≠ [] := by
  unfold format04d
  intro h
  rcases List.append_eq_nil.mp h with ⟨h1, h2⟩
  exact absurd h2 (natToDec_props n).2.2

theorem slash_not_mem_format04d (n : ℕ) : ('/' : Char) ∉ format04d n := by
  unfold format04d
  intro h
  rcases List.mem_append.mp h with h | h
  · exact absurd (List.eq_of_mem_replicate h) (by decide)
  · have hd := (natToDec_props n).2.1
    rw [List.all_eq_true] at hd
    exact absurd (hd _ h) (by decide)

theorem parseDecDigits_format04d (n : ℕ) :
    parseDecDigits (format04d n) = n := by
  unfold format04d
  rw [parseDecDigits_replicate_zero, (natToDec_props n).1]

theorem dropWhile_space_digits (s : List Char)
    (hd : s.all Char.isDigit = true) :
    s.dropWhile (fun c => c = ' ') = s := by
  cases s with
  | nil => rfl
  | cons c rest =>
    have hc : Char.isDigit c = true := by
      simp [List.all_cons] at hd
      exact hd.1
    have hcs : ¬ (c = ' ') := by
      intro he
      rw [he] at hc
      exact absurd hc (by decide)
    rw [List.dropWhile_cons]
    simp [hcs]

theorem pyParseInt_digits (s : List Char) (hne : s ≠ [])
    (hd : s.all Char.isDigit = true) :
    pyParseInt s = some ((parseDecDigits s : ℕ) : ℤ) := by
  unfold pyParseInt
  have h1 : s.dropWhile (fun c => c = ' ') = s := dropWhile_space_digits s hd
  have h2 : s.reverse.dropWhile (fun c => c = ' ') = s.reverse := by
    apply dropWhile_space_digits
    simpa [List.all_reverse] using hd
  rw [h1, h2, List.reverse_reverse]
  cases s with
  | nil => exact absurd rfl hne
  | cons c rest =>
    have hc : Char.isDigit c = true := by
      simp [List.all_cons] at hd
      exact hd.1
    have hcm : ¬ (c = '-') := by
      intro he
      rw [he] at hc
      exact absurd hc (by decide)
    have hcp : ¬ (c = '+') := by
      intro he
      rw [he] at hc
      exact absurd hc (by decide)
    simp [hcm, hcp, hd]

/-- C10: for every prefix without a '/' character, positive sequence and
(nonempty) financial-year string, parse_sequence recovers the sequence from
generate_invoice_number; the rendered form is PREFIX/FYyyyy-yy/NNNN with
the sequence zero-padded to 4 digits, and
generate_invoice_number("INV", 42, "2024-25") is exactly
"INV/FY2024-25/0042". -/
theorem C10_invoice_number_roundtrip (today : PyDate) (pfx fy : List Char)
    (sequence : ℕ) (hp : ('/' : Char) ∉ pfx) (hs : 0 < sequence)
    (hfy : fy ≠ []) :
    parse_sequence (generate_invoice_number today pfx sequence fy)
        = (sequence : ℤ)
      ∧ generate_invoice_number today pfx sequence fy
          = pfx ++ '/' :: 'F' :: 'Y' :: (fy ++ '/' :: format04d sequence)
      ∧ generate_invoice_number today ("INV".toList) 42 ("2024-25".toList)
        = ("INV/FY2024-25/0042".toList) := by
  have hfyE : fy.isEmpty = false := by
    cases fy with
    | nil => exact absurd rfl hfy
    | cons a t => rfl
  have hgen : generate_invoice_number today pfx sequence fy
      = (pfx ++ '/' :: 'F' :: 'Y' :: fy) ++ '/' :: format04d sequence := by
    unfold generate_invoice_number
    rw [hfyE]
    simp [List.append_assoc]
  refine ⟨?_, by rw [hgen]; simp [List.append_assoc], ?_⟩
  · rw [hgen]
    have hne : ((pfx ++ '/' :: 'F' :: 'Y' :: fy)
        ++ '/' :: format04d sequence).isEmpty = false := by
      simp
    have hsplit : splitOnChar '/'
        ((pfx ++ '/' :: 'F' :: 'Y' :: fy) ++ '/' :: format04d sequence)
        = splitOnChar '/' (pfx ++ '/' :: 'F' :: 'Y' :: fy)
          ++ [format04d sequence] := by
      rw [splitOnChar_append,
        splitOnChar_no_sep _ _ (slash_not_mem_format04d sequence)]
    have hlast : (splitOnChar '/' (pfx ++ '/' :: 'F' :: 'Y' :: fy)
        ++ [format04d sequence]).getLastD [] = format04d sequence := by
      rw [List.getLastD_eq_getLast?,
        List.getLast?_append_of_ne_nil _ (by simp)]
      rfl
    have hparse : pyParseInt (format04d sequence)
        = some ((sequence : ℕ) : ℤ) := by
      rw [pyParseInt_digits _ (format04d_ne_nil sequence)
        (format04d_digits sequence), parseDecDigits_format04d]
    simp only [parse_sequence, hne, Bool.false_eq_true, if_false,
      hsplit, hlast, hparse]
  · have h42 : natToDec 42 = ['4', '2'] := by
      simp [natToDec, decDigitChar]
    have hfmt : format04d 42 = ['0', '0', '4', '2'] := by
      unfold format04d
      rw [h42]
      decide
    have hge : generate_invoice_number today ("INV".toList) 42
        ("2024-25".toList)
        = ("INV".toList) ++ ['/', 'F', 'Y'] ++ ("2024-25".toList) ++ ['/']
          ++ format04d 42 := rfl
    rw [hge, hfmt]
    decide

/-- C10 (witness): the round trip evaluated at prefix INV, sequence 42,
financial year 2024-25. -/
theorem C10_invoice_number_roundtrip_witness :
    parse_sequence (generate_invoice_number ⟨2025, 1, 1⟩ ("INV".toList) 42
      ("2024-25".toList)) = ((42 : ℕ) : ℤ) :=
  (C10_invoice_number_roundtrip ⟨2025, 1, 1⟩ ("INV".toList) ("2024-25".toList)
    42 (by decide) (by decide) (by decide)).1

theorem roundHalfUpInt_intCast (n : ℤ) : roundHalfUpInt (n : ℚ) = n := by
  unfold roundHalfUpInt
  have h12 : (⌊(1/2 : ℚ)⌋ : ℤ) = 0 := by norm_num
  rcases le_or_lt 0 (n : ℚ) with h | h
  · rw [if_pos h, Int.floor_int_add, h12, add_zero]
  · rw [if_neg (not_le.mpr h)]
    have : -(n : ℚ) = ((-n : ℤ) : ℚ) := by push_cast; ring
    rw [this, Int.floor_int_add, h12, add_zero, neg_neg]

theorem quantize2_int_div_100 (n : ℤ) :
    quantize2 ((n : ℚ) / 100) = (n : ℚ) / 100 := by
  unfold quantize2
  have h : ((n : ℚ) / 100) * 100 = (n : ℚ) := by field_simp
  rw [h, roundHalfUpInt_intCast]

theorem roundHalfUpInt_nonneg (x : ℚ) (h : 0 ≤ x) : 0 ≤ roundHalfUpInt x := by
  unfold roundHalfUpInt
  rw [if_pos h]
  exact Int.le_floor.mpr (by push_cast; linarith)

theorem quantize2_nonneg (x : ℚ) (h : 0 ≤ x) : 0 ≤ quantize2 x := by
  unfold quantize2
  have h2 := roundHalfUpInt_nonneg (x * 100) (by positivity)
  exact div_nonneg (by exact_mod_cast h2) (by norm_num)

theorem quantize2_bounds (x : ℚ) (h : 0 ≤ x) :
    x - 1/200 < quantize2 x ∧ quantize2 x ≤ x + 1/200 := by
  unfold quantize2 roundHalfUpInt
  rw [if_pos (by positivity : (0:ℚ) ≤ x * 100)]
  have h1 : ((⌊x * 100 + 1/2⌋ : ℤ) : ℚ) ≤ x * 100 + 1/2 := Int.floor_le _
  have h2 : x * 100 + 1/2 - 1 < ((⌊x * 100 + 1/2⌋ : ℤ) : ℚ) := by
    have := Int.lt_floor_add_one (x * 100 + 1/2)
    linarith
  constructor <;> [linarith; linarith]

theorem quantize2_near (n : ℤ) (δ : ℚ) (hn : 0 ≤ n) (h1 : -(1/200) < δ)
    (h2 : δ < 1/200) : quantize2 ((n : ℚ) / 100 + δ) = (n : ℚ) / 100 := by
  unfold quantize2 roundHalfUpInt
  have hx : ((n : ℚ) / 100 + δ) * 100 = (n : ℚ) + δ * 100 := by ring
  rw [hx]
  rcases le_or_lt 0 ((n : ℚ) + δ * 100) with h | h
  · rw [if_pos h]
    have hfl : ⌊(n : ℚ) + δ * 100 + 1/2⌋ = n + ⌊δ * 100 + 1/2⌋ := by
      rw [add_assoc, Int.floor_int_add]
    have hzero : ⌊δ * 100 + 1/2⌋ = 0 :=
      Int.floor_eq_zero_iff.mpr ⟨by linarith, by linarith⟩
    rw [hfl, hzero, add_zero]
  · rw [if_neg (not_le.mpr h)]
    have hn0 : n = 0 := by
      by_contra hne
      have h1n : (1 : ℚ) ≤ (n : ℚ) := by
        exact_mod_cast (by omega : (1 : ℤ) ≤ n)
      linarith
    subst hn0
    have hneg : -((0 : ℤ) + δ * 100 : ℚ) = -(δ * 100) := by push_cast; ring
    rw [hneg]
    have hzero : ⌊-(δ * 100) + 1/2⌋ = 0 :=
      Int.floor_eq_zero_iff.mpr ⟨by push_cast at h; linarith, by linarith⟩
    rw [hzero]
    norm_num

/-- C6: applying calculate_reverse_gst to the tax-inclusive total returned
by calculate_gst recovers the taxable base: for X ≥ 0 and r ≥ 0 the round
trip returns round2(X), which differs from X by at most half a minor unit
(so it equals X whenever X has at most two decimals — equality up to
rounding). -/
theorem C6_reverse_gst_roundtrip (X r : ℚ) (hX : 0 ≤ X) (hr : 0 ≤ r) :
    calculate_reverse_gst ((calculate_gst X r false 0).total_amount) r
        = quantize2 X
      ∧ |quantize2 X - X| ≤ 1/200 := by
  have hT0 : 0 ≤ quantize2 X := quantize2_nonneg X hX
  have hbX := quantize2_bounds X hX
  refine ⟨?_, by rw [abs_le]; constructor <;> linarith [hbX.1, hbX.2]⟩
  have hTA : (calculate_gst X r false 0).total_amount
      = quantize2 X + quantize2 (quantize2 X * (r / 100)) := by
    simp [calculate_gst, sub_zero, not_lt.mpr hT0]
  rw [hTA]
  unfold calculate_reverse_gst
  set T := quantize2 X with hTdef
  set G := quantize2 (T * (r / 100)) with hGdef
  have h100 : (0 : ℚ) < 100 + r := by linarith
  have hTr0 : 0 ≤ T * (r / 100) := mul_nonneg hT0 (by positivity)
  have hGb := quantize2_bounds (T * (r / 100)) hTr0
  have hTn : T = ((roundHalfUpInt (X * 100) : ℤ) : ℚ) / 100 := hTdef
  have hn0 : 0 ≤ roundHalfUpInt (X * 100) :=
    roundHalfUpInt_nonneg _ (by positivity)
  have harg : (T + G) * 100 / (100 + r)
      = T + (G - T * (r / 100)) * (100 / (100 + r)) := by
    field_simp
    ring
  set e := G - T * (r / 100) with he
  have he_low : -(1/200) < e := by
    rw [he]
    linarith [hGb.1]
  have he_high : e ≤ 1/200 := by
    rw [he]
    linarith [hGb.2]
  have hk_pos : 0 < 100 / (100 + r) := by positivity
  have hk_le : 100 / (100 + r) ≤ 1 := by
    rw [div_le_one h100]
    linarith
  have hd_low : -(1/200) < e * (100 / (100 + r)) := by
    rcases le_or_lt 0 e with hcase | hcase
    · have hnn : 0 ≤ e * (100 / (100 + r)) := mul_nonneg hcase hk_pos.le
      linarith
    · nlinarith
  have hd_high : e * (100 / (100 + r)) < 1/200 := by
    rcases eq_or_lt_of_le hr with hr0 | hr0
    · have hG0 : G = 0 := by
        rw [hGdef, ← hr0]
        norm_num [quantize2, roundHalfUpInt]
      have he0 : e = 0 := by
        rw [he, hG0, ← hr0]
        ring
      rw [he0]
      norm_num
    · have hk_lt : 100 / (100 + r) < 1 := by
        rw [div_lt_one h100]
        linarith
      rcases le_or_lt e 0 with hcase | hcase
      · have hnp : e * (100 / (100 + r)) ≤ 0 :=
          mul_nonpos_of_nonpos_of_nonneg hcase hk_pos.le
        linarith
      · nlinarith
  rw [harg, hTn]
  exact quantize2_near _ _ hn0 hd_low hd_high

/-- C6 (witness): the round trip at X = 100, r = 18 returns exactly 100. -/
theorem C6_reverse_gst_roundtrip_witness :
    calculate_reverse_gst ((calculate_gst 100 18 false 0).total_amount) 18
      = 100 := by
  have h := (C6_reverse_gst_roundtrip 100 18 (by norm_num) (by norm_num)).1
  rw [h]
  norm_num [quantize2, roundHalfUpInt]

theorem paperCostLoop_ok (rates : List ((ℤ × ℤ × List Char) × ℚ)) :
    ∀ (layers : List PaperLayerObj) (a : ℚ) (b : ℤ),
      (∀ l ∈ layers, l.shade ≠ none)
      → ∃ p, paperCostLoop rates layers a b = .ok p := by
  intro layers
  induction layers with
  | nil =>
    intro a b h
    exact ⟨(a, b), rfl⟩
  | cons l rest ih =>
    intro a b h
    cases hs : l.shade with
    | none => exact absurd hs (h l (List.mem_cons_self l rest))
    | some s =>
      obtain ⟨p, hp⟩ := ih (a + dictGet rates (l.bf, l.gsm, s) * (l.gsm : ℚ))
        (b + l.gsm) (fun x hx => h x (List.mem_cons_of_mem _ hx))
      exact ⟨p, by simp [paperCostLoop, hs, hp]⟩

theorem rct_foldl (layers : List PaperLayerObj) :
    ∀ a : ℚ,
      layers.foldl (fun acc layer =>
        if layer.is_flute then acc else acc + (layer.bf : ℚ) * (1/10)) a
      = a + ((layers.filter (fun l => !l.is_flute)).map
          (fun l => (l.bf : ℚ) * (1/10))).sum := by
  induction layers with
  | nil =>
    intro a
    simp
  | cons l rest ih =>
    intro a
    rw [List.foldl_cons]
    by_cases hf : l.is_flute = true
    · rw [if_pos hf, ih]
      simp [List.filter_cons, hf]
    · have hf' : l.is_flute = false := Bool.not_eq_true _ |>.mp hf
      rw [if_neg hf, ih, List.filter_cons]
      simp only [hf', Bool.not_false, if_true, List.map_cons, List.sum_cons]
      ring

theorem _calculate_ect_none_iff (layers : List PaperLayerObj) :
    _calculate_ect layers = none ↔ ect_raw layers ≤ 0 := by
  unfold _calculate_ect ect_raw
  rw [rct_foldl layers 0, zero_add]
  dsimp only
  split
  case isTrue h =>
    simp only [reduceCtorEq, false_iff, not_le]
    linarith
  case isFalse h =>
    simp only [true_iff]
    linarith [not_lt.mp h]

theorem _calculate_burst_none_iff (layers : List PaperLayerObj) :
    _calculate_burst_strength layers = none ↔ burst_raw layers ≤ 0 := by
  unfold _calculate_burst_strength burst_raw
  dsimp only
  split
  case isTrue h =>
    simp only [reduceCtorEq, false_iff, not_le]
    omega
  case isFalse h =>
    simp only [true_iff]
    omega

theorem _calculate_bct_none_iff (e : Option ℚ) (a b c t : ℚ) :
    _calculate_bct e a b c t = none
      ↔ e = none ∨ ∃ x, e = some x ∧ x ≤ 0 := by
  cases e with
  | none => simp [_calculate_bct]
  | some x =>
    by_cases hx : x ≤ 0
    · simp [_calculate_bct, hx]
    · simp [_calculate_bct, hx]

theorem filter_liner_nil (layers : List PaperLayerObj)
    (h : ∀ l ∈ layers, l.is_flute = true) :
    layers.filter (fun l => !l.is_flute) = [] := by
  rw [List.filter_eq_nil_iff]
  intro l hl
  simp [h l hl]

/-- C7 (amended): for specifications whose layer objects carry their shade
attribute (see C2 for layers built by __init__): when the layer list has
zero liner (non-flute) layers, calculate returns a result with
ect = bct = burst_strength = none (absent, not zero); ect is none exactly
when its raw computed value is ≤ 0, burst_strength is none exactly when its
raw computed value is ≤ 0, and bct is none exactly when ect is none or
ect ≤ 0 (in particular whenever ect is none). -/
theorem C7_amended_strength_metrics (spec : BoxSpecification)
    (rates : List ((ℤ × ℤ × List Char) × ℚ))
    (hshade : ∀ l ∈ spec.paper_layers, l.shade ≠ none) :
    ((∀ l ∈ spec.paper_layers, l.is_flute = true) →
      ∃ res, calculate spec rates = .ok res ∧ res.ect = none
        ∧ res.bct = none ∧ res.burst_strength = none)
    ∧ (_calculate_ect spec.paper_layers = none
        ↔ ect_raw spec.paper_layers ≤ 0)
    ∧ (_calculate_burst_strength spec.paper_layers = none
        ↔ burst_raw spec.paper_layers ≤ 0)
    ∧ ∀ (e : Option ℚ) (a b c t : ℚ),
        (_calculate_bct e a b c t = none
          ↔ e = none ∨ ∃ x, e = some x ∧ x ≤ 0) := by
  refine ⟨?_, _calculate_ect_none_iff _, _calculate_burst_none_iff _,
    fun e a b c t => _calculate_bct_none_iff e a b c t⟩
  intro hflute
  have hect : _calculate_ect spec.paper_layers = none := by
    rw [_calculate_ect_none_iff]
    unfold ect_raw
    rw [filter_liner_nil _ hflute]
    simp
  have hburst : _calculate_burst_strength spec.paper_layers = none := by
    rw [_calculate_burst_none_iff]
    unfold burst_raw
    rw [filter_liner_nil _ hflute]
    simp
  have hok : ∀ w : ℚ, ∃ pc, _calculate_paper_cost w spec.paper_layers rates
      = .ok pc := by
    intro w
    unfold _calculate_paper_cost
    obtain ⟨⟨tr, tg⟩, hp⟩ := paperCostLoop_ok rates spec.paper_layers 0 0 hshade
    rw [hp]
    exact ⟨_, rfl⟩
  obtain ⟨pc, hpc⟩ := hok (_calculate_paper_weight
    ((_calculate_sheet_dimensions spec.length spec.width spec.height).1
      * (_calculate_sheet_dimensions spec.length spec.width spec.height).2
      / GSM_TO_KG_FACTOR) spec.paper_layers spec.fluting_factor)
  obtain ⟨res, hres, he, hb, hbs⟩ :
      ∃ res, calculate spec rates = .ok res
        ∧ res.ect = _calculate_ect spec.paper_layers
        ∧ res.bct = _calculate_bct (_calculate_ect spec.paper_layers)
            spec.length spec.width spec.height
            (_calculate_board_thickness spec.paper_layers spec.fluting_factor)
        ∧ res.burst_strength = _calculate_burst_strength spec.paper_layers :=
    ⟨_, by simp only [calculate, hpc]; rfl, rfl, rfl, rfl⟩
  refine ⟨res, hres, ?_, ?_, ?_⟩
  · rw [he, hect]
  · rw [hb, hect]
    simp [_calculate_bct]
  · rw [hbs, hburst]

/-- C7 (witness for the amended claim): the all-flute specification
evaluates to a result with all three strength metrics absent. -/
theorem C7_amended_strength_metrics_witness :
    (calculate specAllFlute []).map strengthTriple
      = .ok (none, none, none) := by
  obtain ⟨res, hres, h1, h2, h3⟩ :=
    (C7_amended_strength_metrics specAllFlute [] (by decide)).1 (by decide)
  rw [hres]
  simp [Except.map, strengthTriple, h1, h2, h3]

/-- C7 (counterexample): for the single-liner specification with gsm 0 the
board thickness is 0, so the McKee value 5.87 * ect * sqrt(thickness) *
sqrt(perimeter) computed by _calculate_bct is 0, hence ≤ 0 — yet calculate
returns bct = some 0, not none: "each strength metric is None exactly when
its computed value is ≤ 0" fails for bct. -/
theorem C7_counterexample_bct_zero_not_none :
    (calculate specZeroGsmLiner []).map strengthTriple
        = .ok (some (3/2), some 0, some 10)
      ∧ (587/100 : ℝ) * ((3/2 : ℚ) : ℝ)
          * Real.sqrt ((_calculate_board_thickness specZeroGsmLiner.paper_layers
              specZeroGsmLiner.fluting_factor : ℚ) : ℝ)
          * Real.sqrt (((2 * (specZeroGsmLiner.length
              + specZeroGsmLiner.width) : ℚ)) : ℝ) ≤ 0
      ∧ (some (0 : ℝ) : Option ℝ) ≠ none := by
  have hth : _calculate_board_thickness specZeroGsmLiner.paper_layers
      specZeroGsmLiner.fluting_factor = 0 := by
    norm_num [_calculate_board_thickness, specZeroGsmLiner, pyround,
      roundHalfEvenInt]
  have hect : _calculate_ect specZeroGsmLiner.paper_layers = some (3/2) := by
    norm_num [_calculate_ect, specZeroGsmLiner, pyround, roundHalfEvenInt]
  have hburst : _calculate_burst_strength specZeroGsmLiner.paper_layers
      = some 10 := by
    norm_num [_calculate_burst_strength, specZeroGsmLiner, pyround,
      roundHalfEvenInt]
  have hbct : _calculate_bct (some (3/2 : ℚ)) specZeroGsmLiner.length
      specZeroGsmLiner.width specZeroGsmLiner.height 0 = some 0 := by
    norm_num [_calculate_bct, pyroundR, roundHalfEvenIntR, Real.sqrt_zero]
  have hpc : ∃ pc, _calculate_paper_cost
      (_calculate_paper_weight
        ((_calculate_sheet_dimensions specZeroGsmLiner.length
            specZeroGsmLiner.width specZeroGsmLiner.height).1
          * (_calculate_sheet_dimensions specZeroGsmLiner.length
              specZeroGsmLiner.width specZeroGsmLiner.height).2
          / GSM_TO_KG_FACTOR)
        specZeroGsmLiner.paper_layers specZeroGsmLiner.fluting_factor)
      specZeroGsmLiner.paper_layers [] = .ok pc := by
    unfold _calculate_paper_cost
    obtain ⟨⟨tr, tg⟩, hp⟩ := paperCostLoop_ok [] specZeroGsmLiner.paper_layers
      0 0 (by decide)
    rw [hp]
    exact ⟨_, rfl⟩
  obtain ⟨pc, hpc⟩ := hpc
  refine ⟨?_, ?_, by simp⟩
  · simp only [calculate, hpc, Except.map, strengthTriple]
    rw [hect, hth, hbct, hburst]
  · rw [hth]
    norm_num [Real.sqrt_zero]
